import Mathlib

set_option autoImplicit false

/-
  Shallow embedding of the fetch-and-reconcile pipeline of `kyr`
  (src/kyr/service/pull/host.py and src/kyr/service/pull/filters.py).

  Conventions of the embedding:
  * `datetime` values are modelled as `Int` timestamps (seconds); the only
    operations the source performs on them are comparison and subtraction.
  * Python dictionaries are modelled as insertion-ordered association lists
    `List (String × α)`; `dictSet` has exactly Python's insert-or-update
    semantics (update in place keeps the position, fresh keys append).
  * Fallible code is modelled with `Except PyError`; `PyError` distinguishes
    the `InconsistentResultsError` and `GitTokenError` exceptions raised
    explicitly by the source from the `AttributeError` (attribute access on
    `None`) and `TypeError` (`dataclasses.replace(None)`) faults that some
    code paths can hit.
  * Mutation of shared `GitHubToken` objects is modelled by threading a
    `TokenPool` state; a request's bound token is the index of the token
    object inside the pool.
-/

namespace Kyr

/-- Failure classification, from `DataFetchFailReason` in host.py. -/
inductive DataFetchFailReason
  | NO_VALID_TOKEN
  | UNEXPECTED_STATUS
  | NOT_FOUND
deriving DecidableEq, Repr

/-- Exceptions and runtime faults the embedded code can raise. -/
inductive PyError
  | inconsistentResults (msg : String)
  | gitTokenError
  | attributeError
  | typeError
deriving DecidableEq, Repr

/-- Organization payload, from `schemas.Organization`. -/
structure Organization where
  name : String
  private_repos : Int
  public_repos : Int
deriving DecidableEq, Repr

/-- Repository payload, from `schemas.Repo`. -/
structure Repo where
  name : String
  org_name : String
  created_at : Int
  updated_at : Int
  html_url : String
  api_url : String
  updated : Bool
  new : Bool
deriving DecidableEq, Repr

/-- Repository file payload, from `schemas.RepoFile`. -/
structure RepoFile where
  repo_name : String
  file_path : String
  content : String
deriving DecidableEq, Repr

/-- Full repository payload, from `schemas.RepoFull`; `files` is a dict
keyed by file path. -/
structure RepoFull where
  name : String
  org_name : String
  created_at : Int
  updated_at : Int
  html_url : String
  api_url : String
  updated : Bool
  new : Bool
  files : List (String × RepoFile)
deriving DecidableEq, Repr

/-- Result of an organization fetch, from `OrganizationResult`. -/
structure OrganizationResult where
  org_name : String
  succeed : Bool
  fail_reason : Option DataFetchFailReason
  data : Option Organization := none
deriving DecidableEq, Repr

/-- Result of a repo-detail fetch, from `RepoDetailResult`. -/
structure RepoDetailResult where
  org_name : String
  succeed : Bool
  fail_reason : Option DataFetchFailReason
  repo_name : String
  data : Option Repo := none
deriving DecidableEq, Repr

/-- Result of a repo-file fetch, from `RepoFileResult`. -/
structure RepoFileResult where
  org_name : String
  succeed : Bool
  fail_reason : Option DataFetchFailReason
  repo_name : String
  file_path : String
  data : Option RepoFile := none
deriving DecidableEq, Repr

/-- Result of a listing-page fetch, from `ReposListingResult`. -/
structure ReposListingResult where
  org_name : String
  succeed : Bool
  fail_reason : Option DataFetchFailReason
  data : Option Repo := none
deriving DecidableEq, Repr

/-- Merged per-repository record, from `RepoFullResult`. The slots of the
merger are carried over verbatim, so the entries are `Option`s. -/
structure RepoFullResult where
  org_name : String
  succeed : Bool
  fail_reason : Option DataFetchFailReason
  repo_name : String
  file_results : List (Option RepoFileResult)
  data : Option RepoFull := none
deriving DecidableEq, Repr

/-- The two result kinds `RepoResultMerger.add_result` accepts
(`RepoDetailResult` and `RepoFileResult`, both subclasses of `RepoResult`). -/
inductive RepoResult
  | detail (r : RepoDetailResult)
  | file (r : RepoFileResult)
deriving DecidableEq, Repr

/-- Lookup in a Python-dict association list (`d.get(k)` / `d[k]`). -/
def dictLookup {α : Type} (d : List (String × α)) (k : String) : Option α :=
  (d.find? (fun p => p.1 == k)).map Prod.snd

/-- Python dict assignment `d[k] = v`: updates the entry in place when the
key exists, appends otherwise. -/
def dictSet {α : Type} (d : List (String × α)) (k : String) (v : α) :
    List (String × α) :=
  if d.any (fun p => p.1 == k) then
    d.map (fun p => if p.1 == k then (k, v) else p)
  else
    d ++ [(k, v)]

/-- Python dict comprehension over a key list with a constant value
(`\x7bk: v for k in ks\x7d`). -/
def dictOfKeys {α : Type} (ks : List String) (v : α) : List (String × α) :=
  ks.foldl (fun d k => dictSet d k v) []

/-- State of `RepoResultMerger`: the `_file_present` flag dict, the optional
`_repo_result` detail slot and the `_repo_file_results` slot dict. -/
structure RepoResultMerger where
  file_present : List (String × Bool)
  repo_result : Option RepoDetailResult
  repo_file_results : List (String × Option RepoFileResult)
deriving DecidableEq, Repr

/-- `RepoResultMerger.__init__(file_paths)`. -/
def RepoResultMerger.init (file_paths : List String) : RepoResultMerger where
  file_present := dictOfKeys file_paths false
  repo_result := none
  repo_file_results := dictOfKeys file_paths (none : Option RepoFileResult)

/-- `RepoResultMerger.add_result`. -/
def RepoResultMerger.add_result (m : RepoResultMerger) (result : RepoResult) :
    Except PyError RepoResultMerger :=
  match result with
  | .detail r =>
    match m.repo_result with
    | some _ => .error (.inconsistentResults "the same repo result has been added twice")
    | none => .ok { m with repo_result := some r }
  | .file r =>
    match dictLookup m.file_present r.file_path with
    | none => .error (.inconsistentResults "unexpected file has been added")
    | some true => .error (.inconsistentResults "the same file has been added twice")
    | some false =>
      .ok { m with
            file_present := dictSet m.file_present r.file_path true
            repo_file_results := dictSet m.repo_file_results r.file_path (some r) }

/-- `RepoResultMerger._is_complete`. -/
def RepoResultMerger.is_complete (m : RepoResultMerger) : Bool :=
  match m.repo_result with
  | none => false
  | some rr =>
    match rr.data with
    | none => true
    | some d =>
      if !(d.new || d.updated) then true
      else m.file_present.all (fun p => p.2)

/-- The loop body of `RepoResultMerger._is_consistent`: scans the slot dict
in insertion order, raising `AttributeError` on an empty (`None`) slot when
it reads `repo_name` on it, and returning `False` on the first name
mismatch. -/
def consistencyScan (repo_name org_name : String) :
    List (String × Option RepoFileResult) → Except PyError Bool
  | [] => .ok true
  | (_, none) :: _ => .error .attributeError
  | (_, some fr) :: rest =>
    if fr.repo_name != repo_name || fr.org_name != org_name then .ok false
    else consistencyScan repo_name org_name rest

/-- `RepoResultMerger._is_consistent`; reading `repo_name` on an absent
detail result would also be an `AttributeError`, though the caller only
reaches this after `_is_complete` held. -/
def RepoResultMerger.is_consistent (m : RepoResultMerger) : Except PyError Bool :=
  match m.repo_result with
  | none => .error .attributeError
  | some rr => consistencyScan rr.repo_name rr.org_name m.repo_file_results

/-- The accumulation loop of `RepoResultMerger.get_merged_result`: folds the
success flag over the file slots, breaking at the first failed file result,
copying file data (`dataclasses.replace`) of successful ones into the merged
`files` dict. A `None` slot faults reading `succeed` on it; `replace(None)`
faults with `TypeError`. -/
def mergeFilesLoop :
    List (String × Option RepoFileResult) → Bool → List (String × RepoFile) →
    Except PyError (Bool × List (String × RepoFile))
  | [], succeed, files => .ok (succeed, files)
  | (_, none) :: _, _, _ => .error .attributeError
  | (_, some fr) :: rest, succeed, files =>
    if !fr.succeed then .ok (false, files)
    else
      match fr.data with
      | none => .error .typeError
      | some d => mergeFilesLoop rest succeed (dictSet files fr.file_path d)

/-- Body of `RepoResultMerger.get_merged_result` after its guard: reads
`self._repo_result.data` (an `AttributeError` when the detail result or its
data is absent), builds the merged `RepoFull` payload, runs the
accumulation loop, and assembles the `RepoFullResult`. Note line 155 of
host.py: the merged record's `repo_name` field is assigned
`self._repo_result.org_name`. -/
def RepoResultMerger.merge_build (m : RepoResultMerger) :
    Except PyError (Option RepoFullResult) :=
  match m.repo_result with
  | none => .error .attributeError
  | some rr =>
    match rr.data with
    | none => .error .attributeError
    | some repo_data =>
      match mergeFilesLoop m.repo_file_results rr.succeed [] with
      | .error e => .error e
      | .ok (succeed, files) =>
        .ok (some
          { org_name := rr.org_name
            repo_name := rr.org_name
            succeed := succeed
            fail_reason := rr.fail_reason
            file_results := m.repo_file_results.map Prod.snd
            data := some
              { name := repo_data.name
                org_name := repo_data.org_name
                created_at := repo_data.created_at
                updated_at := repo_data.updated_at
                html_url := repo_data.html_url
                api_url := repo_data.api_url
                updated := repo_data.updated
                new := repo_data.new
                files := files } })

/-- `RepoResultMerger.get_merged_result`: `None` unless both `_is_complete`
and `_is_consistent` hold (`or` short-circuits, so the consistency check —
which can fault — only runs once complete), then the merge body. -/
def RepoResultMerger.get_merged_result (m : RepoResultMerger) :
    Except PyError (Option RepoFullResult) :=
  if !m.is_complete then .ok none
  else
    match m.is_consistent with
    | .error e => .error e
    | .ok false => .ok none
    | .ok true => m.merge_build

/-- The token cooldown period (`GitHubToken.EXPIRATION_PERIOD`, one hour),
in seconds. -/
def EXPIRATION_PERIOD : Int := 3600

/-- A credential with its cooldown mark, from `GitHubToken`. -/
structure GitHubToken where
  token : String
  last_expired : Option Int
deriving DecidableEq, Repr

/-- `GitHubToken.is_valid`, evaluated at the current time `now`. -/
def GitHubToken.is_valid (t : GitHubToken) (now : Int) : Bool :=
  match t.last_expired with
  | none => true
  | some e => decide (EXPIRATION_PERIOD ≤ now - e)

/-- The token manager (`GitHubTokenManager`) together with the current
clock; token identity is positional. -/
structure TokenPool where
  tokens : List GitHubToken
  now : Int
deriving DecidableEq, Repr

/-- `GitHubTokenManager.get_token`: index of the first valid token, `none`
when every token is on cooldown. -/
def TokenPool.get_token (p : TokenPool) : Option Nat :=
  p.tokens.findIdx? (fun t => t.is_valid p.now)

/-- Stamp the token at position `i` of a token list as expired `now`. -/
def expireTokens (l : List GitHubToken) (i : Nat) (now : Int) : List GitHubToken :=
  match l, i with
  | [], _ => []
  | t :: ts, 0 => { t with last_expired := some now } :: ts
  | t :: ts, n + 1 => t :: expireTokens ts n now

/-- `GitHubToken.expire` on the token at index `i`: stamps the current
time; the shared object is mutated in place, so the pool sees it. -/
def TokenPool.expire (p : TokenPool) (i : Nat) : TokenPool :=
  { p with tokens := expireTokens p.tokens i p.now }

/-- Name predicates from filters.py (`In`, `StartsWith`, `Equals` and the
`_And` / `_Or` combinators), as a tagged tree. -/
inductive NameFilter
  | inSet (xs : List String)
  | startsWith (p : String)
  | equalsVal (v : String)
  | andF (l r : NameFilter)
  | orF (l r : NameFilter)
deriving DecidableEq, Repr

/-- The `matches` method of each filter class. -/
def NameFilter.matches : NameFilter → String → Bool
  | .inSet xs, v => xs.contains v
  | .startsWith p, v => p.isPrefixOf v
  | .equalsVal v0, v => v == v0
  | .andF l r, v => l.matches v && r.matches v
  | .orF l r, v => l.matches v || r.matches v

/-- `RepoFilter`: an optional name predicate. -/
structure RepoFilter where
  name : Option NameFilter
deriving DecidableEq, Repr

/-- `RepoFilter.matches`: true when no predicate is configured. -/
def RepoFilter.matches (f : RepoFilter) (n : String) : Bool :=
  match f.name with
  | some m => m.matches n
  | none => true

/-- Constructor parameters of the four `DataFetchRequest` subclasses. -/
inductive RequestParams
  | organization (org_name : String)
  | reposListing (org_name : String) (page page_size : Nat) (filt : RepoFilter)
  | repoDetail (org_name repo_name : String) (repo_last_update : Option Int)
  | repoFile (org_name repo_name file_path : String)
deriving DecidableEq, Repr

/-- A constructed request: its parameters and the index of the token bound
at construction time. `DataFetchRequest.__init__` raises before ever storing
`None`, but the field is kept optional because the resolution code checks
for `None` (dead branches in the source). -/
structure DataFetchRequest where
  params : RequestParams
  token : Option Nat
deriving DecidableEq, Repr

/-- `DataFetchRequest.__init__`: looks a token up in the manager and raises
`GitTokenError` when none is valid. -/
def mkRequest (pool : TokenPool) (params : RequestParams) :
    Except PyError DataFetchRequest :=
  match pool.get_token with
  | none => .error .gitTokenError
  | some i => .ok { params := params, token := some i }

/-- Terminal results, as the union of the four result shapes. -/
inductive DataFetchResult
  | org (r : OrganizationResult)
  | listing (r : ReposListingResult)
  | detail (r : RepoDetailResult)
  | file (r : RepoFileResult)
deriving DecidableEq, Repr

/-- The success flag of a result, whichever variant it is. -/
def DataFetchResult.succeed : DataFetchResult → Bool
  | .org r => r.succeed
  | .listing r => r.succeed
  | .detail r => r.succeed
  | .file r => r.succeed

/-- The failure reason of a result, whichever variant it is. -/
def DataFetchResult.fail_reason : DataFetchResult → Option DataFetchFailReason
  | .org r => r.fail_reason
  | .listing r => r.fail_reason
  | .detail r => r.fail_reason
  | .file r => r.fail_reason

/-- The `_handle_no_token` methods: every variant returns its failure
result with reason `NO_VALID_TOKEN` and no follow-ups. Dead code in the
source, since `__init__` raises instead of binding `None`. -/
def handle_no_token (req : DataFetchRequest) : DataFetchResult :=
  match req.params with
  | .organization org =>
    .org { org_name := org, succeed := false, fail_reason := some .NO_VALID_TOKEN }
  | .reposListing org _ _ _ =>
    .listing { org_name := org, succeed := false, fail_reason := some .NO_VALID_TOKEN }
  | .repoDetail org repo _ =>
    .detail { org_name := org, repo_name := repo, succeed := false,
              fail_reason := some .NO_VALID_TOKEN }
  | .repoFile org repo fp =>
    .file { org_name := org, repo_name := repo, file_path := fp, succeed := false,
            fail_reason := some .NO_VALID_TOKEN }

/-- The `_handle_invalid_token` methods: identical shape to
`_handle_no_token` in every variant (also dead code). -/
def handle_invalid_token (req : DataFetchRequest) : DataFetchResult :=
  handle_no_token req

/-- The `_handle_token_retry` methods: every variant reconstructs one fresh
request with its own parameters; the constructor looks a token up and can
raise `GitTokenError`. -/
def handle_token_retry (pool : TokenPool) (req : DataFetchRequest) :
    Except PyError (List DataFetchRequest) :=
  (mkRequest pool req.params).map (fun r => [r])

/-- The `_handle_status` methods. `ReposListingRequest` ignores the status
and always reports `UNEXPECTED_STATUS`; the other three variants report
`NOT_FOUND` for 404 and `UNEXPECTED_STATUS` otherwise. -/
def handle_status (req : DataFetchRequest) (status : Nat) : DataFetchResult :=
  match req.params with
  | .organization org =>
    .org { org_name := org, succeed := false,
           fail_reason := some (if status = 404 then .NOT_FOUND else .UNEXPECTED_STATUS) }
  | .reposListing org _ _ _ =>
    .listing { org_name := org, succeed := false,
               fail_reason := some .UNEXPECTED_STATUS }
  | .repoDetail org repo _ =>
    .detail { org_name := org, repo_name := repo, succeed := false,
              fail_reason := some (if status = 404 then .NOT_FOUND else .UNEXPECTED_STATUS) }
  | .repoFile org repo fp =>
    .file { org_name := org, repo_name := repo, file_path := fp, succeed := false,
            fail_reason := some (if status = 404 then .NOT_FOUND else .UNEXPECTED_STATUS) }

/-- Fields of a 200 repo-detail response body that
`RepoRequest._handle_valid_response` reads (`pushed_at`, `created_at`,
`html_url`, `url`). -/
structure RepoDetailBody where
  pushed_at : Int
  created_at : Int
  html_url : String
  url : String
deriving DecidableEq, Repr

/-- Response bodies, one shape per request variant. The repo-file body
carries the textual content; the base64 wire decoding performed by
`RepoFileRequest._handle_valid_response` is abstracted, the field stores
the decoded text. -/
inductive ResponseBody
  | orgBody (login : String) (total_private_repos public_repos : Int)
  | listingBody (names : List String)
  | detailBody (b : RepoDetailBody)
  | fileBody (content : String)
deriving DecidableEq, Repr

/-- The `_handle_valid_response` methods, dispatched on the request
variant. Listing and detail variants construct follow-up requests through
the raising constructor. The detail variant returns its follow-up list
through Python's `requests_ or None`, so an empty list becomes `none`;
the listing variant returns its list unconditionally. -/
def handle_valid_response (pool : TokenPool) (req : DataFetchRequest)
    (body : ResponseBody) (file_paths : List String)
    (repos_last_update : List (String × Int)) :
    Except PyError (Option DataFetchResult × Option (List DataFetchRequest)) :=
  match req.params, body with
  | .organization org, .orgBody login priv pub =>
    .ok (some (.org
      { org_name := org, succeed := true, fail_reason := none,
        data := some { name := login, private_repos := priv, public_repos := pub } }),
      none)
  | .reposListing org _ _ filt, .listingBody names => do
    let reqs ← (names.filter (fun n => filt.matches n)).mapM
      (fun n => mkRequest pool (.repoDetail org n (dictLookup repos_last_update n)))
    .ok (none, some reqs)
  | .repoDetail org repo lastUpd, .detailBody b => do
    let step : Bool × Bool × List DataFetchRequest ←
      match lastUpd with
      | none => do
        let reqs ← file_paths.mapM (fun fp => mkRequest pool (.repoFile org repo fp))
        pure (true, false, reqs)
      | some lu =>
        if b.pushed_at > lu then do
          let reqs ← file_paths.mapM (fun fp => mkRequest pool (.repoFile org repo fp))
          pure (false, true, reqs)
        else
          pure (false, false, ([] : List DataFetchRequest))
    let result : RepoDetailResult :=
      { org_name := org, succeed := true, fail_reason := none, repo_name := repo,
        data := some
          { name := repo, org_name := org, created_at := b.created_at,
            updated_at := b.pushed_at, html_url := b.html_url, api_url := b.url,
            updated := step.2.1, new := step.1 } }
    .ok (some (.detail result), if step.2.2.isEmpty then none else some step.2.2)
  | .repoFile org repo fp, .fileBody content =>
    .ok (some (.file
      { org_name := org, repo_name := repo, succeed := true, fail_reason := none,
        file_path := fp,
        data := some { repo_name := repo, file_path := fp, content := content } }),
      none)
  | _, _ => .error .typeError

/-- `DataFetchRequest._process_response`, with the token pool threaded
explicitly: the returned pool reflects any `expire` performed even when the
call raises. On 403 with a bound token, the token is expired first and the
follow-up is constructed against the already-expired pool. -/
def process_response (pool : TokenPool) (req : DataFetchRequest) (status : Nat)
    (body : ResponseBody) (file_paths : List String)
    (repos_last_update : List (String × Int)) :
    TokenPool ×
      Except PyError (Option DataFetchResult × Option (List DataFetchRequest)) :=
  if status = 403 then
    match req.token with
    | none => (pool, .ok (some (handle_invalid_token req), none))
    | some i =>
      let pool' := pool.expire i
      (pool', (handle_token_retry pool' req).map (fun reqs => (none, some reqs)))
  else if status ≠ 200 then
    (pool, .ok (some (handle_status req status), none))
  else
    (pool, handle_valid_response pool req body file_paths repos_last_update)

/-- The request-seeding step of `GitHub.get_repos` (host.py lines 597-620):
when the configured name filter is an `In` set, one `RepoRequest` per named
repository with `repo_last_update=None` (the `repos_last_update` argument of
`get_repos` is not consulted); otherwise one `ReposListingRequest` per page
of 100 for the organization's repo count. -/
def seed_requests (pool : TokenPool) (org_name : String) (repos_count : Nat)
    (filt : RepoFilter) : Except PyError (List DataFetchRequest) :=
  match filt.name with
  | some (.inSet xs) =>
    xs.mapM (fun repo_name => mkRequest pool (.repoDetail org_name repo_name none))
  | _ =>
    let page_size := 100
    let lp := repos_count / page_size
    let last_page := if repos_count % page_size = 0 then lp else lp + 1
    (List.range last_page).mapM
      (fun p => mkRequest pool (.reposListing org_name (p + 1) page_size filt))

/-- Success flag of a merger slot as the merge loop reads it; an empty slot
has no flag (the loop faults on it). -/
def slotSucceed : Option RepoFileResult → Bool
  | some fr => fr.succeed
  | none => false

/-- The merge loop of `get_merged_result` terminates without a fault on a
slot list iff, scanning in order, every successful file result preceding
the first failed one is filled and carries data. -/
def loopSafe : List (String × Option RepoFileResult) → Bool
  | [] => true
  | (_, none) :: _ => false
  | (_, some fr) :: rest => if fr.succeed then fr.data.isSome && loopSafe rest else true

theorem dictSet_snd {α : Type} (d : List (String × α)) (k : String) (v : α)
    (h : ∀ p ∈ d, p.2 = v) : ∀ p ∈ dictSet d k v, p.2 = v := by
  intro p hp
  unfold dictSet at hp
  split at hp
  · obtain ⟨q, hq, hqe⟩ := List.mem_map.mp hp
    split at hqe
    · exact hqe ▸ rfl
    · exact hqe ▸ h q hq
  · rcases List.mem_append.mp hp with h1 | h1
    · exact h p h1
    · simp only [List.mem_singleton] at h1
      exact h1 ▸ rfl

theorem dictOfKeys_snd {α : Type} (ks : List String) (v : α) :
    ∀ p ∈ dictOfKeys ks v, p.2 = v := by
  unfold dictOfKeys
  suffices h : ∀ (d : List (String × α)), (∀ p ∈ d, p.2 = v) →
      ∀ p ∈ ks.foldl (fun d k => dictSet d k v) d, p.2 = v by
    exact h [] (by simp)
  induction ks with
  | nil => intro d hd; simpa using hd
  | cons k ks ih =>
    intro d hd
    exact ih (dictSet d k v) (dictSet_snd d k v hd)

theorem dictSet_ne_nil {α : Type} (d : List (String × α)) (k : String) (v : α) :
    dictSet d k v ≠ [] := by
  unfold dictSet
  split
  · intro h
    rcases d with _ | ⟨p, d⟩
    · simp at *
    · simp at h
  · simp

theorem dictOfKeys_ne_nil {α : Type} (ks : List String) (v : α) (h : ks ≠ []) :
    dictOfKeys ks v ≠ [] := by
  unfold dictOfKeys
  rcases ks with _ | ⟨k, ks⟩
  · exact absurd rfl h
  · clear h
    suffices hs : ∀ (d : List (String × α)), d ≠ [] →
        ks.foldl (fun d k => dictSet d k v) d ≠ [] by
      exact hs (dictSet [] k v) (dictSet_ne_nil [] k v)
    induction ks with
    | nil => intro d hd; simpa using hd
    | cons k2 ks ih =>
      intro d _
      exact ih (dictSet d k2 v) (dictSet_ne_nil d k2 v)

theorem consistencyScan_ok_true_iff (rn og : String)
    (l : List (String × Option RepoFileResult)) :
    consistencyScan rn og l = .ok true ↔
      ∀ p ∈ l, ∃ fr, p.2 = some fr ∧ fr.repo_name = rn ∧ fr.org_name = og := by
  induction l with
  | nil => simp [consistencyScan]
  | cons p rest ih =>
    obtain ⟨k, o⟩ := p
    rcases o with _ | fr
    · simp [consistencyScan]
    · unfold consistencyScan
      by_cases hmm : (fr.repo_name != rn || fr.org_name != og) = true
      · rw [if_pos hmm]
        constructor
        · intro h; exact absurd h (by simp)
        · intro h
          obtain ⟨fr2, hfr2, h1, h2⟩ := h (k, some fr) (List.mem_cons_self _ _)
          simp only [Option.some.injEq] at hfr2
          subst hfr2
          simp [h1, h2] at hmm
      · rw [if_neg hmm, ih]
        simp only [Bool.or_eq_true, bne_iff_ne, ne_eq, not_or, Bool.not_eq_true] at hmm
        push_neg at hmm
        constructor
        · intro h q hq
          rcases List.mem_cons.mp hq with h1 | h1
          · exact h1 ▸ ⟨fr, rfl, hmm.1, hmm.2⟩
          · exact h q h1
        · intro h q hq
          exact h q (List.mem_cons_of_mem _ hq)

theorem mergeFilesLoop_isOk_iff (l : List (String × Option RepoFileResult))
    (s : Bool) (f : List (String × RepoFile)) :
    (∃ out, mergeFilesLoop l s f = .ok out) ↔ loopSafe l = true := by
  induction l generalizing s f with
  | nil => simp [mergeFilesLoop, loopSafe]
  | cons p rest ih =>
    obtain ⟨k, o⟩ := p
    rcases o with _ | fr
    · simp [mergeFilesLoop, loopSafe]
    · unfold mergeFilesLoop loopSafe
      by_cases hs : fr.succeed = true
      · simp only [hs, Bool.not_true, if_true, if_false]
        rcases hd : fr.data with _ | d
        · simp
        · simp only [Option.isSome_some, Bool.true_and]
          exact ih s (dictSet f fr.file_path d)
      · simp only [Bool.not_eq_true] at hs
        simp [hs]

theorem mergeFilesLoop_succeed (l : List (String × Option RepoFileResult))
    (s : Bool) (f : List (String × RepoFile)) (s' : Bool)
    (f' : List (String × RepoFile))
    (h : mergeFilesLoop l s f = .ok (s', f')) :
    s' = (s && l.all (fun p => slotSucceed p.2)) := by
  induction l generalizing s f with
  | nil =>
    unfold mergeFilesLoop at h
    simp only [Except.ok.injEq, Prod.mk.injEq] at h
    simp [h.1]
  | cons p rest ih =>
    obtain ⟨k, o⟩ := p
    rcases o with _ | fr
    · exact absurd h (by simp [mergeFilesLoop])
    · unfold mergeFilesLoop at h
      by_cases hs : fr.succeed = true
      · simp only [hs, Bool.not_true, if_false] at h
        rcases hd : fr.data with _ | d
        · rw [hd] at h; exact absurd h (by simp)
        · rw [hd] at h
          have := ih s (dictSet f fr.file_path d) h
          simp [this, List.all_cons, slotSucceed, hs]
      · simp only [Bool.not_eq_true] at hs
        simp only [hs, Bool.not_false, if_true, Except.ok.injEq, Prod.mk.injEq] at h
        simp [← h.1, List.all_cons, slotSucceed, hs]

theorem is_complete_iff (m : RepoResultMerger) (rr : RepoDetailResult)
    (hrr : m.repo_result = some rr) :
    m.is_complete = true ↔
      (rr.data = none ∨
       (∃ d, rr.data = some d ∧ d.new = false ∧ d.updated = false) ∨
       ∀ p ∈ m.file_present, p.2 = true) := by
  unfold RepoResultMerger.is_complete
  rw [hrr]
  rcases hd : rr.data with _ | d
  · simp [hd]
  · simp only [hd]
    cases hn : d.new <;> cases hu : d.updated <;>
      simp [hn, hu, List.all_eq_true]

theorem is_consistent_eq (m : RepoResultMerger) (rr : RepoDetailResult)
    (hrr : m.repo_result = some rr) :
    m.is_consistent = consistencyScan rr.repo_name rr.org_name m.repo_file_results := by
  unfold RepoResultMerger.is_consistent
  rw [hrr]

theorem get_merged_result_not_complete (m : RepoResultMerger)
    (hc : m.is_complete = false) : m.get_merged_result = .ok none := by
  unfold RepoResultMerger.get_merged_result
  rw [hc]
  rfl

theorem get_merged_result_complete (m : RepoResultMerger)
    (hc : m.is_complete = true) :
    m.get_merged_result =
      match m.is_consistent with
      | .error e => .error e
      | .ok false => .ok none
      | .ok true => m.merge_build := by
  unfold RepoResultMerger.get_merged_result
  rw [hc]
  rfl

theorem merge_build_eq (m : RepoResultMerger) (rr : RepoDetailResult)
    (hrr : m.repo_result = some rr) (repo_data : Repo)
    (hd : rr.data = some repo_data) :
    m.merge_build =
      match mergeFilesLoop m.repo_file_results rr.succeed [] with
      | .error e => .error e
      | .ok (succeed, files) =>
        .ok (some
          { org_name := rr.org_name
            repo_name := rr.org_name
            succeed := succeed
            fail_reason := rr.fail_reason
            file_results := m.repo_file_results.map Prod.snd
            data := some
              { name := repo_data.name
                org_name := repo_data.org_name
                created_at := repo_data.created_at
                updated_at := repo_data.updated_at
                html_url := repo_data.html_url
                api_url := repo_data.api_url
                updated := repo_data.updated
                new := repo_data.new
                files := files } }) := by
  unfold RepoResultMerger.merge_build
  rw [hrr]
  simp only [hd]

theorem merge_build_data_none (m : RepoResultMerger) (rr : RepoDetailResult)
    (hrr : m.repo_result = some rr) (hd : rr.data = none) :
    m.merge_build = .error .attributeError := by
  unfold RepoResultMerger.merge_build
  rw [hrr]
  simp only [hd]

/-- C1 (corrected): `get_merged_result` returns a merged record iff the
merger is complete AND consistent (every requested slot is filled with a
file result sharing the detail result's repo and org names) AND the detail
result carries data AND every successful file result preceding the first
failed one carries data; completeness alone is not enough. When a record is
returned, its overall `succeed` is the AND of the detail result's success
and every accumulated file result's success, and its failure reason is the
detail result's failure reason. -/
theorem get_merged_result_iff (m : RepoResultMerger) (rr : RepoDetailResult)
    (hrr : m.repo_result = some rr) :
    ((∃ r, m.get_merged_result = .ok (some r)) ↔
      (m.is_complete = true ∧
       (∀ p ∈ m.repo_file_results, ∃ fr, p.2 = some fr ∧
          fr.repo_name = rr.repo_name ∧ fr.org_name = rr.org_name) ∧
       rr.data.isSome = true ∧
       loopSafe m.repo_file_results = true)) ∧
    (∀ r, m.get_merged_result = .ok (some r) →
      r.succeed = (rr.succeed && m.repo_file_results.all (fun p => slotSucceed p.2)) ∧
      r.fail_reason = rr.fail_reason) := by
  cases hc : m.is_complete with
  | false =>
    rw [get_merged_result_not_complete m hc]
    constructor
    · constructor
      · rintro ⟨r, hr⟩; exact absurd hr (by simp)
      · rintro ⟨h1, -⟩; exact absurd h1 (by simp [hc])
    · intro r hr; exact absurd hr (by simp)
  | true =>
    rw [get_merged_result_complete m hc, is_consistent_eq m rr hrr]
    rcases hscan : consistencyScan rr.repo_name rr.org_name m.repo_file_results with e | b
    · constructor
      · constructor
        · rintro ⟨r, hr⟩; exact absurd hr (by simp)
        · rintro ⟨-, hcons, -, -⟩
          rw [(consistencyScan_ok_true_iff rr.repo_name rr.org_name
            m.repo_file_results).mpr hcons] at hscan
          exact absurd hscan (by simp)
      · intro r hr; exact absurd hr (by simp)
    · cases b with
      | false =>
        constructor
        · constructor
          · rintro ⟨r, hr⟩; exact absurd hr (by simp)
          · rintro ⟨-, hcons, -, -⟩
            rw [(consistencyScan_ok_true_iff rr.repo_name rr.org_name
              m.repo_file_results).mpr hcons] at hscan
            exact absurd hscan (by simp)
        · intro r hr; exact absurd hr (by simp)
      | true =>
        show ((∃ r, m.merge_build = .ok (some r)) ↔ _) ∧
          (∀ r, m.merge_build = .ok (some r) → _)
        rcases hd : rr.data with _ | repo_data
        · rw [merge_build_data_none m rr hrr hd]
          constructor
          · constructor
            · rintro ⟨r, hr⟩; exact absurd hr (by simp)
            · rintro ⟨-, -, hds, -⟩; exact absurd hds (by simp)
          · intro r hr; exact absurd hr (by simp)
        · rw [merge_build_eq m rr hrr repo_data hd]
          rcases hloop : mergeFilesLoop m.repo_file_results rr.succeed [] with e | out
          · constructor
            · constructor
              · rintro ⟨r, hr⟩; exact absurd hr (by simp)
              · rintro ⟨-, -, -, hsafe⟩
                obtain ⟨out, hout⟩ :=
                  (mergeFilesLoop_isOk_iff m.repo_file_results rr.succeed []).mpr hsafe
                rw [hout] at hloop
                exact absurd hloop (by simp)
            · intro r hr; exact absurd hr (by simp)
          · obtain ⟨s, f⟩ := out
            constructor
            · constructor
              · intro _
                refine ⟨rfl, (consistencyScan_ok_true_iff rr.repo_name rr.org_name
                    m.repo_file_results).mp hscan, rfl, ?_⟩
                exact (mergeFilesLoop_isOk_iff m.repo_file_results rr.succeed []).mp
                  ⟨(s, f), hloop⟩
              · intro _; exact ⟨_, rfl⟩
            · intro r hr
              simp only [Except.ok.injEq, Option.some.injEq] at hr
              subst hr
              exact ⟨mergeFilesLoop_succeed m.repo_file_results rr.succeed [] s f hloop,
                rfl⟩

/-- Detail result for a new repository "z" of organization "o". -/
def rrNew : RepoDetailResult :=
  { org_name := "o", succeed := true, fail_reason := none, repo_name := "z",
    data := some { name := "z", org_name := "o", created_at := 1, updated_at := 2,
                   html_url := "h", api_url := "u", updated := false, new := true } }

/-- File result for path "a" carrying a mismatched repository name "x". -/
def frMismatch : RepoFileResult :=
  { org_name := "o", succeed := true, fail_reason := none, repo_name := "x",
    file_path := "a",
    data := some { repo_name := "x", file_path := "a", content := "c" } }

/-- The state reached by adding `rrNew` and `frMismatch` to a fresh merger
for the single file path "a": its detail slot is filled and the one
requested path holds exactly one file result, yet the names disagree. -/
def mergerMismatch : RepoResultMerger :=
  { file_present := [("a", true)], repo_result := some rrNew,
    repo_file_results := [("a", some frMismatch)] }

/-- C1 counterexample: a merger that is complete in the claim's sense (the
detail result is present and the one requested file path has exactly one
file result) on which `get_merged_result` nevertheless returns no record,
because the file result's repository name differs from the detail
result's. -/
theorem get_merged_complete_counterexample :
    ((RepoResultMerger.init ["a"]).add_result (.detail rrNew)).bind
        (fun m => m.add_result (.file frMismatch)) = .ok mergerMismatch ∧
    mergerMismatch.is_complete = true ∧
    mergerMismatch.get_merged_result = .ok none :=
  ⟨rfl, rfl, rfl⟩

/-- File result for path "a" agreeing with `rrNew` on both names. -/
def frGood : RepoFileResult :=
  { org_name := "o", succeed := true, fail_reason := none, repo_name := "z",
    file_path := "a",
    data := some { repo_name := "z", file_path := "a", content := "c" } }

/-- A complete and consistent merger over the single file path "a". -/
def mergerGood : RepoResultMerger :=
  { file_present := [("a", true)], repo_result := some rrNew,
    repo_file_results := [("a", some frGood)] }

theorem get_merged_result_iff_witness :
    ∃ r, mergerGood.get_merged_result = Except.ok (some r) :=
  ((get_merged_result_iff mergerGood rrNew rfl).1).mpr
    ⟨rfl,
     by
       intro p hp
       simp only [mergerGood, List.mem_singleton] at hp
       subst hp
       exact ⟨frGood, rfl, rfl, rfl⟩,
     rfl, rfl⟩

theorem consistencyScan_all_none (rn og : String)
    (l : List (String × Option RepoFileResult)) (hne : l ≠ [])
    (hall : ∀ p ∈ l, p.2 = none) :
    consistencyScan rn og l = .error .attributeError := by
  rcases l with _ | ⟨⟨k, o⟩, rest⟩
  · exact absurd rfl hne
  · have h := hall (k, o) (List.mem_cons_self _ _)
    simp only at h
    subst h
    rfl

/-- C3: confirmed. A merger holding only a successful detail result that
classifies the repo as unchanged (`new=false`, `updated=false`), while at
least one file path was requested, is complete, but `get_merged_result`
faults with an `AttributeError`: the consistency check reads `repo_name`
on the empty (None) file-result slots instead of returning a record or
`None`. (`GitHub._gather_repo_results` constructs every merger with the
full configured file-path set, host.py line 666, so this state is reached
for every unchanged repository whenever file paths are configured.) -/
theorem merged_unchanged_with_paths_faults (fps : List String)
    (rr : RepoDetailResult) (d : Repo) (m : RepoResultMerger)
    (hne : fps ≠ [])
    (hd : rr.data = some d) (hnew : d.new = false) (hupd : d.updated = false)
    (hadd : (RepoResultMerger.init fps).add_result (.detail rr) = .ok m) :
    m.get_merged_result = .error .attributeError := by
  unfold RepoResultMerger.add_result at hadd
  simp only [RepoResultMerger.init, Except.ok.injEq] at hadd
  subst hadd
  have hcomp : RepoResultMerger.is_complete
      { file_present := dictOfKeys fps false, repo_result := some rr,
        repo_file_results := dictOfKeys fps none } = true := by
    unfold RepoResultMerger.is_complete
    simp [hd, hnew, hupd]
  have hcons : RepoResultMerger.is_consistent
      { file_present := dictOfKeys fps false, repo_result := some rr,
        repo_file_results := dictOfKeys fps none } = .error .attributeError := by
    unfold RepoResultMerger.is_consistent
    simp only
    exact consistencyScan_all_none rr.repo_name rr.org_name _
      (dictOfKeys_ne_nil fps none hne) (dictOfKeys_snd fps none)
  rw [get_merged_result_complete _ hcomp, hcons]

/-- Detail result for an unchanged repository "r" of organization "o". -/
def rrUnchanged : RepoDetailResult :=
  { org_name := "o", succeed := true, fail_reason := none, repo_name := "r",
    data := some { name := "r", org_name := "o", created_at := 1, updated_at := 2,
                   html_url := "h", api_url := "u", updated := false, new := false } }

/-- The merger for file path "f" holding only `rrUnchanged`. -/
def mergerUnchanged : RepoResultMerger :=
  { file_present := [("f", false)], repo_result := some rrUnchanged,
    repo_file_results := [("f", none)] }

theorem merged_unchanged_with_paths_faults_witness :
    mergerUnchanged.get_merged_result = .error .attributeError :=
  merged_unchanged_with_paths_faults ["f"] rrUnchanged _ mergerUnchanged
    (by simp) rfl rfl rfl rfl

theorem merge_build_ok (m : RepoResultMerger) (rr : RepoDetailResult)
    (hrr : m.repo_result = some rr) (r : RepoFullResult)
    (hr : m.merge_build = .ok (some r)) :
    r.repo_name = rr.org_name ∧ r.org_name = rr.org_name ∧
    r.fail_reason = rr.fail_reason ∧
    r.succeed = (rr.succeed && m.repo_file_results.all (fun p => slotSucceed p.2)) := by
  unfold RepoResultMerger.merge_build at hr
  split at hr
  · exact absurd hr (by simp)
  next rr' hrr' =>
    rw [hrr] at hrr'
    injection hrr' with h
    subst h
    split at hr
    · exact absurd hr (by simp)
    next repo_data hd =>
      split at hr
      · exact absurd hr (by simp)
      next s f hloop =>
        simp only [Except.ok.injEq, Option.some.injEq] at hr
        subst hr
        exact ⟨rfl, rfl, rfl, mergeFilesLoop_succeed _ _ _ s f hloop⟩

/-- C9: confirmed. Whenever a merged record is produced, its `repo_name`
field is set from the detail result's organization name (host.py line 155),
and its `org_name` field carries the same organization name. -/
theorem merged_repo_name_is_org_name (m : RepoResultMerger)
    (rr : RepoDetailResult) (r : RepoFullResult)
    (hrr : m.repo_result = some rr)
    (hr : m.get_merged_result = .ok (some r)) :
    r.repo_name = rr.org_name ∧ r.org_name = rr.org_name := by
  unfold RepoResultMerger.get_merged_result at hr
  split at hr
  · exact absurd hr (by simp)
  · split at hr
    · exact absurd hr (by simp)
    · exact absurd hr (by simp)
    · have h := merge_build_ok m rr hrr r hr
      exact ⟨h.1, h.2.1⟩

/-- The merged record `mergerGood.get_merged_result` produces. -/
def rFullGood : RepoFullResult :=
  { org_name := "o", succeed := true, fail_reason := none, repo_name := "o",
    file_results := [some frGood],
    data := some
      { name := "z", org_name := "o", created_at := 1, updated_at := 2,
        html_url := "h", api_url := "u", updated := false, new := true,
        files := [("a", { repo_name := "z", file_path := "a", content := "c" })] } }

theorem merged_repo_name_is_org_name_witness :
    rFullGood.repo_name = rrNew.org_name ∧ rFullGood.org_name = rrNew.org_name :=
  merged_repo_name_is_org_name mergerGood rrNew rFullGood rfl rfl

theorem dictLookup_dictSet_self {α : Type} (d : List (String × α)) (k : String)
    (v : α) : dictLookup (dictSet d k v) k = some v := by
  unfold dictSet
  by_cases hany : d.any (fun p => p.1 == k) = true
  · rw [if_pos hany]
    induction d with
    | nil => simp at hany
    | cons p rest ih =>
      rcases hpk : (p.1 == k) with _ | _
      · simp only [List.any_cons, hpk, Bool.false_or] at hany
        simpa [dictLookup, List.find?, hpk] using ih hany
      · simp [dictLookup, List.find?, hpk]
  · rw [if_neg hany]
    simp only [Bool.not_eq_true, List.any_eq_false] at hany
    induction d with
    | nil => simp [dictLookup, List.find?]
    | cons p rest ih =>
      have hp : (p.1 == k) = false := hany p (List.mem_cons_self _ _)
      simp only [List.cons_append]
      simpa [dictLookup, List.find?, hp] using
        ih (fun q hq => hany q (List.mem_cons_of_mem _ hq))

theorem dictLookup_dictSet_ne {α : Type} (d : List (String × α)) (k k' : String)
    (v : α) (hne : k' ≠ k) :
    dictLookup (dictSet d k v) k' = dictLookup d k' := by
  unfold dictSet
  have hkk : (k == k') = false := by
    simp only [beq_eq_false_iff_ne, ne_eq]
    exact fun h => hne (h ▸ rfl)
  by_cases hany : d.any (fun p => p.1 == k) = true
  · rw [if_pos hany]
    clear hany
    induction d with
    | nil => simp [dictLookup]
    | cons p rest ih =>
      rcases hpk : (p.1 == k) with _ | _
      · rcases hpk' : (p.1 == k') with _ | _
        · simpa [dictLookup, List.find?, hpk, hpk'] using ih
        · simp [dictLookup, List.find?, hpk, hpk']
      · have hpk' : (p.1 == k') = false := by
          have h1 : p.1 = k := by simpa using hpk
          simp only [beq_eq_false_iff_ne, ne_eq, h1]
          exact fun h => hne h.symm
        simpa [dictLookup, List.find?, hpk, hpk', hkk] using ih
  · rw [if_neg hany]
    clear hany
    induction d with
    | nil => simp [dictLookup, List.find?, hkk]
    | cons p rest ih =>
      rcases hpk' : (p.1 == k') with _ | _
      · simpa [dictLookup, List.find?, hpk'] using ih
      · simp [dictLookup, List.find?, hpk']

theorem add_result_detail_eq (m : RepoResultMerger) (d : RepoDetailResult) :
    m.add_result (.detail d) =
      match m.repo_result with
      | some _ => .error (.inconsistentResults "the same repo result has been added twice")
      | none => .ok { m with repo_result := some d } := rfl

theorem add_result_file_eq (m : RepoResultMerger) (fr : RepoFileResult) :
    m.add_result (.file fr) =
      match dictLookup m.file_present fr.file_path with
      | none => .error (.inconsistentResults "unexpected file has been added")
      | some true => .error (.inconsistentResults "the same file has been added twice")
      | some false =>
        .ok { m with
              file_present := dictSet m.file_present fr.file_path true
              repo_file_results := dictSet m.repo_file_results fr.file_path (some fr) } := rfl

/-- C8: confirmed. `add_result` raises the protocol-violation
(`InconsistentResultsError`) exactly when the added result is a detail
result while the detail slot is already filled, a file result for a path
whose slot is already marked filled, or a file result for a path outside
the requested file-path set; no state is produced in those cases, so no
slot is overwritten. Any other add succeeds and fills exactly the
corresponding empty slot, leaving every other slot and the detail slot
untouched. -/
theorem add_result_spec (m : RepoResultMerger) (r : RepoResult) :
    ((∃ msg, m.add_result r = .error (.inconsistentResults msg)) ↔
      (match r with
       | .detail _ => m.repo_result.isSome = true
       | .file fr => dictLookup m.file_present fr.file_path = none ∨
           dictLookup m.file_present fr.file_path = some true)) ∧
    (∀ m', m.add_result r = .ok m' →
      match r with
      | .detail d =>
          m' = { m with repo_result := some d }
      | .file fr =>
          m'.repo_result = m.repo_result ∧
          dictLookup m'.file_present fr.file_path = some true ∧
          dictLookup m'.repo_file_results fr.file_path = some (some fr) ∧
          (∀ k, k ≠ fr.file_path →
            dictLookup m'.file_present k = dictLookup m.file_present k ∧
            dictLookup m'.repo_file_results k = dictLookup m.repo_file_results k)) := by
  rcases r with d | fr
  · rw [add_result_detail_eq]
    cases hrr : m.repo_result with
    | none =>
      constructor
      · constructor
        · rintro ⟨msg, hmsg⟩; exact absurd hmsg (by simp)
        · intro h; exact absurd h (by simp)
      · intro m' hm'
        simp only [Except.ok.injEq] at hm'
        exact hm'.symm
    | some rr =>
      constructor
      · constructor
        · intro _; rfl
        · intro _; exact ⟨_, rfl⟩
      · intro m' hm'; exact absurd hm' (by simp)
  · rw [add_result_file_eq]
    cases hlk : dictLookup m.file_present fr.file_path with
    | none =>
      constructor
      · constructor
        · intro _; exact Or.inl hlk
        · intro _; exact ⟨_, rfl⟩
      · intro m' hm'; exact absurd hm' (by simp)
    | some b =>
      cases b with
      | true =>
        constructor
        · constructor
          · intro _; exact Or.inr hlk
          · intro _; exact ⟨_, rfl⟩
        · intro m' hm'; exact absurd hm' (by simp)
      | false =>
        constructor
        · constructor
          · rintro ⟨msg, hmsg⟩; exact absurd hmsg (by simp)
          · rintro (h | h) <;> rw [hlk] at h <;> exact absurd h (by simp)
        · intro m' hm'
          simp only [Except.ok.injEq] at hm'
          subst hm'
          refine ⟨rfl, dictLookup_dictSet_self _ _ _,
            dictLookup_dictSet_self _ _ _, ?_⟩
          intro k hk
          exact ⟨dictLookup_dictSet_ne _ _ _ _ hk,
            dictLookup_dictSet_ne _ _ _ _ hk⟩

/-- A fresh file result for the path "f" of `mergerUnchanged`'s repo. -/
def frFresh : RepoFileResult :=
  { org_name := "o", succeed := true, fail_reason := none, repo_name := "r",
    file_path := "f",
    data := some { repo_name := "r", file_path := "f", content := "cc" } }

theorem add_result_spec_witness :
    ∀ m', mergerUnchanged.add_result (.file frFresh) = .ok m' →
      m'.repo_result = mergerUnchanged.repo_result ∧
      dictLookup m'.file_present frFresh.file_path = some true ∧
      dictLookup m'.repo_file_results frFresh.file_path = some (some frFresh) ∧
      (∀ k, k ≠ frFresh.file_path →
        dictLookup m'.file_present k = dictLookup mergerUnchanged.file_present k ∧
        dictLookup m'.repo_file_results k = dictLookup mergerUnchanged.repo_file_results k) :=
  (add_result_spec mergerUnchanged (.file frFresh)).2

theorem loopSafe_of_slots (l : List (String × Option RepoFileResult))
    (h : ∀ p ∈ l, ∃ fr, p.2 = some fr ∧ (fr.succeed = true → fr.data.isSome = true)) :
    loopSafe l = true := by
  induction l with
  | nil => rfl
  | cons p rest ih =>
    obtain ⟨fr, hfr, hd⟩ := h p (List.mem_cons_self _ _)
    obtain ⟨k, o⟩ := p
    simp only at hfr
    subst hfr
    unfold loopSafe
    by_cases hs : fr.succeed = true
    · rw [if_pos hs, hd hs, ih (fun q hq => h q (List.mem_cons_of_mem _ hq))]
      rfl
    · rw [if_neg hs]

/-- C2 (corrected): a merger whose detail result succeeded while one of its
file results is a 404 failure (`NOT_FOUND`) merges, once every slot is
filled consistently, into a record with `succeed = false` — but its failure
reason is `none`, inherited from the successful detail result; the
`NOT_FOUND` reason of the failed file fetch is not propagated to the merged
record (it remains visible only inside the carried `file_results`). -/
theorem merged_file_not_found (m : RepoResultMerger) (rr : RepoDetailResult)
    (hrr : m.repo_result = some rr)
    (hcomp : m.is_complete = true)
    (hfail : rr.fail_reason = none)
    (hdata : rr.data.isSome = true)
    (hslots : ∀ p ∈ m.repo_file_results, ∃ fr, p.2 = some fr ∧
      fr.repo_name = rr.repo_name ∧ fr.org_name = rr.org_name ∧
      (fr.succeed = true → fr.data.isSome = true))
    (h404 : ∃ p ∈ m.repo_file_results, ∃ fr, p.2 = some fr ∧ fr.succeed = false ∧
      fr.fail_reason = some .NOT_FOUND) :
    ∃ r, m.get_merged_result = .ok (some r) ∧ r.succeed = false ∧
      r.fail_reason = none := by
  obtain ⟨repo_data, hd⟩ := Option.isSome_iff_exists.mp hdata
  have hscan : consistencyScan rr.repo_name rr.org_name m.repo_file_results = .ok true :=
    (consistencyScan_ok_true_iff _ _ _).mpr
      (fun p hp => by
        obtain ⟨fr, h1, h2, h3, _⟩ := hslots p hp
        exact ⟨fr, h1, h2, h3⟩)
  have hsafe : loopSafe m.repo_file_results = true :=
    loopSafe_of_slots _ (fun p hp => by
      obtain ⟨fr, h1, _, _, h4⟩ := hslots p hp
      exact ⟨fr, h1, h4⟩)
  obtain ⟨⟨s, f⟩, hloop⟩ :=
    (mergeFilesLoop_isOk_iff m.repo_file_results rr.succeed []).mpr hsafe
  have hmb := merge_build_eq m rr hrr repo_data hd
  rw [hloop] at hmb
  have hget : m.get_merged_result = m.merge_build := by
    rw [get_merged_result_complete m hcomp, is_consistent_eq m rr hrr, hscan]
  have hall : m.repo_file_results.all (fun p => slotSucceed p.2) = false := by
    obtain ⟨p, hp, fr, hfr, hfs, _⟩ := h404
    refine List.all_eq_false.mpr ⟨p, hp, ?_⟩
    simp [slotSucceed, hfr, hfs]
  have hs : s = false := by
    have h := mergeFilesLoop_succeed m.repo_file_results rr.succeed [] s f hloop
    rw [hall, Bool.and_false] at h
    exact h
  refine ⟨_, by rw [hget, hmb], hs, hfail⟩

/-- Detail result of scenario D: repo "z" of "acme", succeeded, new. -/
def rrScenD : RepoDetailResult :=
  { org_name := "acme", succeed := true, fail_reason := none, repo_name := "z",
    data := some { name := "z", org_name := "acme", created_at := 1, updated_at := 2,
                   html_url := "h", api_url := "u", updated := false, new := true } }

/-- Scenario D file result for path "p1": 200, content fetched. -/
def frScenD1 : RepoFileResult :=
  { org_name := "acme", succeed := true, fail_reason := none, repo_name := "z",
    file_path := "p1",
    data := some { repo_name := "z", file_path := "p1", content := "c1" } }

/-- Scenario D file result for path "p2": 404, `NOT_FOUND`. -/
def frScenD2 : RepoFileResult :=
  { org_name := "acme", succeed := false, fail_reason := some .NOT_FOUND,
    repo_name := "z", file_path := "p2", data := none }

/-- Scenario D merger: both slots filled, detail succeeded, "p2" was 404. -/
def mergerScenD : RepoResultMerger :=
  { file_present := [("p1", true), ("p2", true)], repo_result := some rrScenD,
    repo_file_results := [("p1", some frScenD1), ("p2", some frScenD2)] }

/-- The record `mergerScenD.get_merged_result` actually produces. -/
def rFullScenD : RepoFullResult :=
  { org_name := "acme", succeed := false, fail_reason := none, repo_name := "acme",
    file_results := [some frScenD1, some frScenD2],
    data := some { name := "z", org_name := "acme", created_at := 1, updated_at := 2,
                   html_url := "h", api_url := "u", updated := false, new := true,
                   files := [("p1", { repo_name := "z", file_path := "p1", content := "c1" })] } }

/-- C2 counterexample: the exact scenario-D merger (detail succeeded, one
of the two files 404) is reached by the add sequence and merges into a
record whose failure reason is `none`, not `NOT_FOUND` as claimed. -/
theorem merged_file_not_found_counterexample :
    (((RepoResultMerger.init ["p1", "p2"]).add_result (.detail rrScenD)).bind
        (fun m => m.add_result (.file frScenD1))).bind
        (fun m => m.add_result (.file frScenD2)) = .ok mergerScenD ∧
    mergerScenD.get_merged_result = .ok (some rFullScenD) ∧
    rFullScenD.succeed = false ∧
    rFullScenD.fail_reason = none ∧
    rFullScenD.fail_reason ≠ some DataFetchFailReason.NOT_FOUND :=
  ⟨rfl, rfl, rfl, rfl, by simp [rFullScenD]⟩

theorem merged_file_not_found_witness :
    ∃ r, mergerScenD.get_merged_result = Except.ok (some r) ∧
      r.succeed = false ∧ r.fail_reason = none :=
  merged_file_not_found mergerScenD rrScenD rfl rfl rfl rfl
    (by
      intro p hp
      simp only [mergerScenD, List.mem_cons, List.not_mem_nil, or_false] at hp
      rcases hp with h | h
      · subst h; exact ⟨frScenD1, rfl, rfl, rfl, fun _ => rfl⟩
      · subst h; exact ⟨frScenD2, rfl, rfl, rfl, fun hc => absurd hc (by decide)⟩)
    ⟨("p2", some frScenD2), by simp [mergerScenD], frScenD2, rfl, rfl, rfl⟩

theorem expireTokens_get (l : List GitHubToken) (i : Nat) (now : Int)
    (hlen : i < l.length) :
    (expireTokens l i now).get? i =
      (l.get? i).map (fun t => { t with last_expired := some now }) := by
  induction l generalizing i with
  | nil => simp at hlen
  | cons t ts ih =>
    cases i with
    | zero => rfl
    | succ n =>
      simpa [expireTokens] using ih n (by simpa using hlen)

theorem process_response_200 (pool : TokenPool) (req : DataFetchRequest)
    (body : ResponseBody) (fps : List String) (rlu : List (String × Int)) :
    process_response pool req 200 body fps rlu =
      (pool, handle_valid_response pool req body fps rlu) := rfl

theorem process_response_403 (pool : TokenPool) (req : DataFetchRequest)
    (body : ResponseBody) (fps : List String) (rlu : List (String × Int))
    (i : Nat) (htok : req.token = some i) :
    process_response pool req 403 body fps rlu =
      (pool.expire i,
        (handle_token_retry (pool.expire i) req).map (fun reqs => (none, some reqs))) := by
  unfold process_response
  rw [htok]
  rfl

theorem process_response_other (pool : TokenPool) (req : DataFetchRequest)
    (status : Nat) (body : ResponseBody) (fps : List String)
    (rlu : List (String × Int)) (h403 : status ≠ 403) (h200 : status ≠ 200) :
    process_response pool req status body fps rlu =
      (pool, .ok (some (handle_status req status), none)) := by
  unfold process_response
  rw [if_neg h403, if_pos h200]

/-- C4 (corrected): resolving a 403 with a bound token first marks that
token expired (the returned pool state carries the expiry stamp), produces
no terminal result, and produces exactly one follow-up request of the same
variant with identical parameters, bound to a token freshly looked up in
the already-expired pool — provided such a valid token remains. When the
expiry leaves no valid token, the follow-up's constructor raises
`GitTokenError` instead, so no follow-up (and no result) is produced. -/
theorem retry_403_spec (pool : TokenPool) (req : DataFetchRequest) (i : Nat)
    (body : ResponseBody) (fps : List String) (rlu : List (String × Int))
    (htok : req.token = some i) (hlen : i < pool.tokens.length) :
    (((pool.expire i).tokens.get? i).map GitHubToken.last_expired =
      some (some pool.now)) ∧
    (∀ j, (pool.expire i).get_token = some j →
      process_response pool req 403 body fps rlu =
        (pool.expire i, .ok (none, some [{ params := req.params, token := some j }]))) ∧
    ((pool.expire i).get_token = none →
      process_response pool req 403 body fps rlu =
        (pool.expire i, .error .gitTokenError)) := by
  refine ⟨?_, ?_, ?_⟩
  · rw [show (pool.expire i).tokens = expireTokens pool.tokens i pool.now from rfl,
      expireTokens_get pool.tokens i pool.now hlen]
    obtain ⟨t, ht⟩ : ∃ t, pool.tokens.get? i = some t := by
      rw [List.get?_eq_get hlen]
      exact ⟨_, rfl⟩
    rw [ht]
    rfl
  · intro j hj
    rw [process_response_403 pool req body fps rlu i htok]
    unfold handle_token_retry mkRequest
    rw [hj]
    rfl
  · intro hj
    rw [process_response_403 pool req body fps rlu i htok]
    unfold handle_token_retry mkRequest
    rw [hj]
    rfl

/-- A pool holding a single token that is still valid. -/
def poolOne : TokenPool :=
  { tokens := [{ token := "t0", last_expired := none }], now := 0 }

/-- A repo-file request bound to `poolOne`'s only token. -/
def reqFile : DataFetchRequest :=
  { params := .repoFile "o" "r" "p", token := some 0 }

/-- C4 counterexample: resolving a 403 on a single-token pool expires the
token and then raises `GitTokenError` from the follow-up's constructor:
no follow-up request (and no terminal result) is produced, contrary to the
claim's unconditional "exactly one follow-up". -/
theorem retry_403_counterexample :
    process_response poolOne reqFile 403 (.listingBody []) [] [] =
      ({ tokens := [{ token := "t0", last_expired := some 0 }], now := 0 },
        .error .gitTokenError) := rfl

/-- A pool holding two valid tokens. -/
def poolDuo : TokenPool :=
  { tokens := [{ token := "t0", last_expired := none },
               { token := "t1", last_expired := none }], now := 100 }

/-- The repo-file request bound to the first token of `poolDuo`. -/
def reqFileDuo : DataFetchRequest :=
  { params := .repoFile "o" "r" "p", token := some 0 }

theorem retry_403_spec_witness :
    process_response poolDuo reqFileDuo 403 (.listingBody []) [] [] =
      (poolDuo.expire 0,
        .ok (none, some [{ params := reqFileDuo.params, token := some 1 }])) :=
  (retry_403_spec poolDuo reqFileDuo 0 (.listingBody []) [] [] rfl
    (by simp [poolDuo])).2.1 1 rfl

/-- A pool whose single token is expired and within cooldown. -/
def poolExhausted : TokenPool :=
  { tokens := [{ token := "t0", last_expired := some 0 }], now := 0 }

/-- C5 (code bug): when no valid token is available at construction time,
`DataFetchRequest.__init__` raises `GitTokenError` (host.py lines 196-197)
before any resolution can happen. Every variant nevertheless implements a
`_handle_no_token` that would return the claimed terminal failure with
reason `NO_VALID_TOKEN` and no follow-ups; because the constructor raises
first, that handler is unreachable. -/
theorem no_valid_token_construction_raises :
    mkRequest poolExhausted (.repoDetail "o" "r" none) = .error .gitTokenError ∧
    handle_no_token { params := .repoDetail "o" "r" none, token := none } =
      .detail { org_name := "o", repo_name := "r", succeed := false,
                fail_reason := some .NO_VALID_TOKEN, data := none } ∧
    (∀ req : DataFetchRequest, (handle_no_token req).succeed = false ∧
      (handle_no_token req).fail_reason = some .NO_VALID_TOKEN) := by
  refine ⟨rfl, rfl, ?_⟩
  intro req
  rcases req with ⟨params, tok⟩
  rcases params <;> exact ⟨rfl, rfl⟩

/-- C6 (corrected): resolving any status other than 200 and 403 yields a
terminal failure result and no follow-ups on every variant; the reason is
`NOT_FOUND` for 404 (else `UNEXPECTED_STATUS`) on the Organization,
RepoDetail and RepoFile variants, but `ReposListingRequest` ignores the
status and reports `UNEXPECTED_STATUS` for every such status, 404
included. -/
theorem non_ok_status_terminal (pool : TokenPool) (req : DataFetchRequest)
    (status : Nat) (body : ResponseBody) (fps : List String)
    (rlu : List (String × Int)) (h403 : status ≠ 403) (h200 : status ≠ 200) :
    process_response pool req status body fps rlu =
      (pool, .ok (some (handle_status req status), none)) ∧
    (handle_status req status).succeed = false ∧
    (match req.params with
     | .reposListing _ _ _ _ =>
       (handle_status req status).fail_reason = some .UNEXPECTED_STATUS
     | _ =>
       (handle_status req status).fail_reason =
         some (if status = 404 then .NOT_FOUND else .UNEXPECTED_STATUS)) := by
  refine ⟨process_response_other pool req status body fps rlu h403 h200, ?_, ?_⟩
  · rcases req with ⟨params, tok⟩
    rcases params <;> rfl
  · rcases req with ⟨params, tok⟩
    rcases params <;> rfl

/-- A listing request for page 1 of "o" with no name filter. -/
def reqListing : DataFetchRequest :=
  { params := .reposListing "o" 1 100 { name := none }, token := some 0 }

/-- The terminal result a listing request produces for a 404. -/
def listing404Result : ReposListingResult :=
  { org_name := "o", succeed := false,
    fail_reason := some .UNEXPECTED_STATUS, data := none }

/-- C6 counterexample: a 404 on a listing request is classified
`UNEXPECTED_STATUS`, not `NOT_FOUND` as the claim requires for every
variant. -/
theorem listing_404_counterexample :
    process_response poolDuo reqListing 404 (.listingBody []) [] [] =
      (poolDuo, .ok (some (.listing listing404Result), none)) ∧
    listing404Result.fail_reason = some .UNEXPECTED_STATUS ∧
    some DataFetchFailReason.UNEXPECTED_STATUS ≠ some DataFetchFailReason.NOT_FOUND :=
  ⟨rfl, rfl, by simp⟩

/-- A repo-detail request bound to `poolDuo`'s first token. -/
def reqDetailDuo : DataFetchRequest :=
  { params := .repoDetail "o" "r" (some 50), token := some 0 }

theorem non_ok_status_terminal_witness :
    process_response poolDuo reqDetailDuo 404 (.listingBody []) [] [] =
      (poolDuo, .ok (some (handle_status reqDetailDuo 404), none)) ∧
    (handle_status reqDetailDuo 404).fail_reason = some .NOT_FOUND :=
  ⟨(non_ok_status_terminal poolDuo reqDetailDuo 404 (.listingBody []) [] []
      (by decide) (by decide)).1,
   (non_ok_status_terminal poolDuo reqDetailDuo 404 (.listingBody []) [] []
      (by decide) (by decide)).2.2⟩

theorem bindE_ok {α β : Type} (a : α) (f : α → Except PyError β) :
    (Except.ok a >>= f) = f a := rfl

theorem bindE_error {α β : Type} (e : PyError) (f : α → Except PyError β) :
    (Except.error e >>= f : Except PyError β) = .error e := rfl

theorem mapM_mkRequest (pool : TokenPool) (j : Nat)
    (htok : pool.get_token = some j) (mk : String → RequestParams)
    (fps : List String) :
    fps.mapM (fun fp => mkRequest pool (mk fp)) =
      pure (fps.map (fun fp =>
        ({ params := mk fp, token := some j } : DataFetchRequest))) := by
  induction fps with
  | nil => rfl
  | cons fp rest ih =>
    rw [List.mapM_cons, ih]
    unfold mkRequest
    rw [htok]
    rfl

theorem seed_requests_in (pool : TokenPool) (org : String) (count : Nat)
    (filt : RepoFilter) (xs : List String)
    (hf : filt.name = some (.inSet xs)) :
    seed_requests pool org count filt =
      xs.mapM (fun repo_name => mkRequest pool (.repoDetail org repo_name none)) := by
  unfold seed_requests
  rw [hf]

theorem mapM_mkRequest_none (pool : TokenPool)
    (htok : pool.get_token = none) (mk : String → RequestParams)
    (fp : String) (rest : List String) :
    (fp :: rest).mapM (fun fp => mkRequest pool (mk fp)) =
      (.error .gitTokenError : Except PyError (List DataFetchRequest)) := by
  rw [List.mapM_cons]
  unfold mkRequest
  rw [htok]
  rfl

/-- The detail result `_handle_valid_response` builds for a new repo. -/
def detailResNew (org repo : String) (b : RepoDetailBody) : RepoDetailResult :=
  { org_name := org, succeed := true, fail_reason := none, repo_name := repo,
    data := some { name := repo, org_name := org, created_at := b.created_at,
                   updated_at := b.pushed_at, html_url := b.html_url,
                   api_url := b.url, updated := false, new := true } }

/-- The detail result `_handle_valid_response` builds for an updated repo. -/
def detailResUpdated (org repo : String) (b : RepoDetailBody) : RepoDetailResult :=
  { org_name := org, succeed := true, fail_reason := none, repo_name := repo,
    data := some { name := repo, org_name := org, created_at := b.created_at,
                   updated_at := b.pushed_at, html_url := b.html_url,
                   api_url := b.url, updated := true, new := false } }

/-- The detail result `_handle_valid_response` builds for an unchanged repo. -/
def detailResUnchanged (org repo : String) (b : RepoDetailBody) : RepoDetailResult :=
  { org_name := org, succeed := true, fail_reason := none, repo_name := repo,
    data := some { name := repo, org_name := org, created_at := b.created_at,
                   updated_at := b.pushed_at, html_url := b.html_url,
                   api_url := b.url, updated := false, new := false } }

/-- C7 (corrected): resolving a RepoDetail request with status 200 yields a
detail result whose `new` flag is true iff the last known update is absent
and whose `updated` flag is true iff it is present and the remote push time
is strictly greater; file-fetch follow-ups, one per configured file path,
are produced iff new or updated (none at all for an unchanged repo) —
provided a valid token is available to construct them. With the token pool
exhausted, a new-or-updated repo with at least one configured path makes
the resolution raise `GitTokenError` instead of producing the result. -/
theorem detail_200_classification (pool : TokenPool) (req : DataFetchRequest)
    (org repo : String) (lastUpd : Option Int) (b : RepoDetailBody)
    (fps : List String) (rlu : List (String × Int)) (j : Nat)
    (hp : req.params = .repoDetail org repo lastUpd)
    (htok : pool.get_token = some j) :
    ∃ res : RepoDetailResult, ∃ d : Repo,
      res.data = some d ∧
      process_response pool req 200 (.detailBody b) fps rlu =
        (pool, .ok (some (.detail res),
          if (d.new || d.updated) && !fps.isEmpty then
            some (fps.map (fun fp =>
              ({ params := .repoFile org repo fp, token := some j } : DataFetchRequest)))
          else none)) ∧
      (d.new = true ↔ lastUpd = none) ∧
      (d.updated = true ↔ ∃ lu, lastUpd = some lu ∧ b.pushed_at > lu) := by
  rcases req with ⟨params, tok⟩
  simp only at hp
  subst hp
  rcases lastUpd with _ | lu
  · refine ⟨detailResNew org repo b, _, rfl, ?_, by simp [detailResNew], by simp [detailResNew]⟩
    rw [process_response_200]
    dsimp only [handle_valid_response, detailResNew]
    cases fps with
    | nil => rfl
    | cons fp rest =>
      rw [mapM_mkRequest pool j htok
        (fun fp => RequestParams.repoFile org repo fp) (fp :: rest)]
      rfl
  · by_cases hgt : b.pushed_at > lu
    · refine ⟨detailResUpdated org repo b, _, rfl, ?_,
        by simp [detailResUpdated], by simp [detailResUpdated, hgt]⟩
      rw [process_response_200]
      dsimp only [handle_valid_response, detailResUpdated]
      rw [if_pos hgt]
      cases fps with
      | nil => rfl
      | cons fp rest =>
        rw [mapM_mkRequest pool j htok
          (fun fp => RequestParams.repoFile org repo fp) (fp :: rest)]
        rfl
    · refine ⟨detailResUnchanged org repo b, _, rfl, ?_,
        by simp [detailResUnchanged], by simp [detailResUnchanged, hgt]⟩
      rw [process_response_200]
      dsimp only [handle_valid_response, detailResUnchanged]
      rw [if_neg hgt]
      rfl

/-- C7 counterexample: with every token on cooldown, resolving a detail
request at 200 for a new repository with one configured file path raises
`GitTokenError` from the file request's constructor: neither the detail
result nor the claimed follow-ups are produced. -/
theorem detail_200_counterexample :
    process_response poolExhausted
        { params := .repoDetail "o" "r" none, token := some 0 } 200
        (.detailBody { pushed_at := 50, created_at := 1, html_url := "h", url := "u" })
        ["p"] [] =
      (poolExhausted, .error .gitTokenError) := rfl

/-- Body of a 200 detail response pushed at time 99. -/
def bodyW : RepoDetailBody :=
  { pushed_at := 99, created_at := 1, html_url := "h", url := "u" }

theorem detail_200_classification_witness :
    ∃ res : RepoDetailResult, ∃ d : Repo,
      res.data = some d ∧
      process_response poolDuo reqDetailDuo 200 (.detailBody bodyW) ["p1"] [] =
        (poolDuo, .ok (some (.detail res),
          if (d.new || d.updated) && !(["p1"] : List String).isEmpty then
            some ((["p1"] : List String).map (fun fp =>
              ({ params := .repoFile "o" "r" fp, token := some 0 } : DataFetchRequest)))
          else none)) ∧
      (d.new = true ↔ (some (50 : Int) : Option Int) = none) ∧
      (d.updated = true ↔ ∃ lu, (some (50 : Int) : Option Int) = some lu ∧
        bodyW.pushed_at > lu) :=
  detail_200_classification poolDuo reqDetailDuo "o" "r" (some 50) bodyW
    ["p1"] [] 0 rfl rfl

/-- C10: confirmed. With an `In` name filter, `get_repos` seeds one
RepoRequest per named repository with `repo_last_update=None` — the
`repos_last_update` mapping passed to `get_repos` is not consulted at all
in this branch (host.py lines 597-606) — and any such request whose detail
fetch succeeds (status 200, result produced) is classified `new=true`,
`updated=false`, with one file-fetch follow-up per configured file path. -/
theorem in_filter_seeds_without_last_update (pool : TokenPool) (org : String)
    (xs : List String) (count : Nat) (filt : RepoFilter)
    (reqs : List DataFetchRequest) (j : Nat)
    (hf : filt.name = some (.inSet xs))
    (htok : pool.get_token = some j)
    (hseed : seed_requests pool org count filt = .ok reqs) :
    reqs = xs.map (fun n =>
      ({ params := .repoDetail org n none, token := some j } : DataFetchRequest)) ∧
    (∀ (pool2 : TokenPool) (org2 repo2 : String) (tok : Option Nat)
       (b : RepoDetailBody) (fps : List String) (rlu : List (String × Int))
       (res : RepoDetailResult) (follow : Option (List DataFetchRequest)),
      process_response pool2 { params := .repoDetail org2 repo2 none, token := tok }
          200 (.detailBody b) fps rlu = (pool2, .ok (some (.detail res), follow)) →
      ∃ d, res.data = some d ∧ d.new = true ∧ d.updated = false ∧
        (fps = [] → follow = none) ∧
        (fps ≠ [] → ∃ j2, pool2.get_token = some j2 ∧
          follow = some (fps.map (fun fp =>
            ({ params := .repoFile org2 repo2 fp, token := some j2 } : DataFetchRequest))))) := by
  constructor
  · rw [seed_requests_in pool org count filt xs hf,
      mapM_mkRequest pool j htok (fun n => RequestParams.repoDetail org n none) xs]
      at hseed
    exact (Except.ok.injEq _ _).mp hseed |>.symm
  · intro pool2 org2 repo2 tok b fps rlu res follow hproc
    rw [process_response_200] at hproc
    dsimp only [handle_valid_response] at hproc
    cases fps with
    | nil =>
      rw [List.mapM_nil] at hproc
      simp only [bindE_ok, pure_bind, Prod.mk.injEq, Except.ok.injEq,
        Option.some.injEq, DataFetchResult.detail.injEq, List.isEmpty_nil,
        if_true, true_and] at hproc
      obtain ⟨hres, hfollow⟩ := hproc
      subst hres
      exact ⟨_, rfl, rfl, rfl, fun _ => hfollow.symm, fun h => absurd rfl h⟩
    | cons fp rest =>
      cases hpt : pool2.get_token with
      | none =>
        rw [mapM_mkRequest_none pool2 hpt
          (fun fp => RequestParams.repoFile org2 repo2 fp) fp rest] at hproc
        simp only [bindE_error] at hproc
        exact absurd hproc (by simp)
      | some j2 =>
        rw [mapM_mkRequest pool2 j2 hpt
          (fun fp => RequestParams.repoFile org2 repo2 fp) (fp :: rest)] at hproc
        simp only [pure_bind, Prod.mk.injEq, Except.ok.injEq, Option.some.injEq,
          DataFetchResult.detail.injEq, List.map_cons, List.isEmpty_cons,
          true_and] at hproc
        obtain ⟨hres, hfollow⟩ := hproc
        subst hres
        refine ⟨_, rfl, rfl, rfl, fun h => absurd h (by simp),
          fun _ => ⟨j2, rfl, ?_⟩⟩
        rw [← hfollow]
        simp

/-- An `In` name filter for two explicitly named repositories. -/
def filtIn : RepoFilter := { name := some (.inSet ["r1", "r2"]) }

/-- The requests seeding produces for `filtIn` against `poolDuo`. -/
def reqsIn : List DataFetchRequest :=
  [{ params := .repoDetail "o" "r1" none, token := some 0 },
   { params := .repoDetail "o" "r2" none, token := some 0 }]

theorem in_filter_seeds_without_last_update_witness :
    reqsIn = ["r1", "r2"].map (fun n =>
      ({ params := RequestParams.repoDetail "o" n none,
         token := some 0 } : DataFetchRequest)) :=
  (in_filter_seeds_without_last_update poolDuo "o" ["r1", "r2"] 5 filtIn
    reqsIn 0 rfl rfl rfl).1

end Kyr
